import Mathlib

/-!
Verification of the dynamic Slicer command-line wrapper
(`nipype/interfaces/slicer.py`): schema-driven parameter compilation,
default output filenames, command-argument formatting and post-run
output resolution.

The Python source is shallowly embedded: each XML parameter node is a
record of the children and attributes the code reads, exceptions become
an explicit error type carried by `Except`, and the per-node body of the
`SlicerCommandLine.__init__` loop becomes `compileParam`, preserving the
source's evaluation (and hence error) order.
-/

set_option autoImplicit false

namespace SlicerCLI

/-- Errors the embedded code can signal.  `indexError tag` stands for the
Python `IndexError` raised by `getElementsByTagName(tag)[0]` on an empty
list; `keyError k` for a failed dict lookup; `expatError` for an XML
parse failure; `processError` for a failure of the external process.
`schemaFetchError` and `invalidSchemaError` are the exception classes the
specification names; they exist nowhere in the source and no embedded
operation produces them. -/
inductive PyError where
  | indexError (tag : String)
  | keyError (key : String)
  | expatError
  | processError
  | schemaFetchError
  | invalidSchemaError
deriving DecidableEq, Repr

/-- One parameter node of the fetched XML schema, holding exactly the
pieces the Python code reads: the node name (the parameter kind), the
text of the children found by `getElementsByTagName` for each consulted
tag, and the `fileExtensions` attribute (`getAttribute` yields `""` when
the attribute is absent). -/
structure ParamNode where
  nodeName : String
  nameChildren : List String
  longflagChildren : List String
  indexChildren : List String
  descriptionChildren : List String
  channelChildren : List String
  elementChildren : List String
  fileExtensions : String
deriving DecidableEq, Repr

/-- The trait class instantiated for a field (`traits.Int`, `File`,
`traits.Enum(values)`, `traits.List(inner)`,
`traits.Either(traits.Bool, File)`, ...). -/
inductive TraitType where
  | intT
  | floatT
  | boolT
  | strT
  | fileT
  | enumT (values : List String)
  | listT (inner : TraitType)
  | eitherBoolFile
deriving DecidableEq, Repr

/-- The `traitsParams` keyword dictionary accumulated for a node:
`argstr`, optional `position`, optional `desc`, optional `sep`, and the
`exists` metadata flag. -/
structure TraitsParams where
  argstr : String
  position : Option String
  desc : Option String
  sep : Option String
  existsFlag : Bool
deriving DecidableEq, Repr

/-- The effect of one iteration of the `__init__` parameter loop:
the field name, the input-side trait and its params, whether the node
was classified as an output, the cached default output filename
(`_outputs_filenames[name]`), and the XML node itself (the loop stores
output nodes in `_outputs_nodes`). -/
structure CompiledParam where
  name : String
  inputType : TraitType
  inputParams : TraitsParams
  isOutput : Bool
  outputFilename : Option String
  node : ParamNode
deriving DecidableEq, Repr

/-- `argsDict` of line 55: value-format string per parameter kind.
There is no entry for `directory`. -/
def argsDict : String → Option String
  | "file" => some "%s"
  | "integer" => some "%d"
  | "double" => some "%f"
  | "float" => some "%f"
  | "image" => some "%s"
  | "transform" => some "%s"
  | "boolean" => some ""
  | "string-enumeration" => some "%s"
  | "string" => some "%s"
  | _ => none

/-- `typesDict` of line 72: trait class per parameter kind.  There is no
entry for `directory` and none for `string-enumeration`. -/
def typesDict : String → Option TraitType
  | "integer" => some .intT
  | "double" => some .floatT
  | "float" => some .floatT
  | "image" => some .fileT
  | "transform" => some .fileT
  | "boolean" => some .boolT
  | "string" => some .strT
  | "file" => some .fileT
  | _ => none

/-- The extension table of `_gen_filename_from_param` (line 112):
only `image`, `transform` and `file` have entries. -/
def extDict : String → Option String
  | "image" => some ".nii"
  | "transform" => some ".txt"
  | "file" => some ""
  | _ => none

/-- The file-like kinds tested on lines 85 and 94. -/
def fileKinds : List String := ["file", "directory", "image", "transform"]

/-- Node names skipped by the loop (line 42). -/
def skipNames : List String := ["label", "description", "#text", "#comment"]

/-- Python `s.endswith(suf)`, computed on the character lists. -/
def endsWithStr (s suf : String) : Bool :=
  List.isSuffixOf suf.data s.data

/-- Python slicing `s[:-n]` for `0 < n ≤ len(s)`: drop the last `n`
characters. -/
def dropRightStr (s : String) (n : Nat) : String :=
  ⟨s.data.take (s.data.length - n)⟩

/-- Whether a path is already absolute (starts with a slash). -/
def startsWithSlash (s : String) : Bool :=
  match s.data with
  | [] => false
  | c :: _ => c == '/'

/-- `getElementsByTagName(tag)[0].firstChild.nodeValue`: the head of the
child list, or the `IndexError` the subscript raises on an empty list. -/
def headE {α : Type} (l : List α) (e : PyError) : Except PyError α :=
  match l with
  | [] => .error e
  | a :: _ => .ok a

/-- `os.path.abspath`, modelled as joining a relative path onto the
current working directory (absolute inputs are kept as they are). -/
def abspath (cwd p : String) : String :=
  if startsWithSlash p then p else cwd ++ "/" ++ p

/-- Lines 48-52: the flag prefix of `argstr`, from the first `longflag`
child when present, else from the parameter name. -/
def flagOf (longflagChildren : List String) (name : String) : String :=
  match longflagChildren with
  | f :: _ => "--" ++ f ++ " "
  | [] => "--" ++ name ++ " "

/-- Lines 57-60: the value-format appended to `argstr`; a `-vector`
suffix is stripped before the `argsDict` lookup, and a missing key
raises `KeyError`. -/
def fmtOf (p : ParamNode) : Except PyError String :=
  if endsWithStr p.nodeName "-vector" then
    match argsDict (dropRightStr p.nodeName 7) with
    | some f => .ok f
    | none => .error (.keyError (dropRightStr p.nodeName 7))
  else
    match argsDict p.nodeName with
    | some f => .ok f
    | none => .error (.keyError p.nodeName)

/-- Lines 66-68: `desc` is read (by an unguarded `desc[0]`) exactly when
an `index` child exists. -/
def descOf (p : ParamNode) : Except PyError (Option String) :=
  match p.indexChildren with
  | [] => .ok none
  | _ :: _ =>
    match p.descriptionChildren with
    | [] => .error (.indexError "description")
    | d :: _ => .ok (some d)

/-- Lines 72-83: the trait type and the optional `sep` entry.
`string-enumeration` is checked first and never consults `typesDict`;
vector kinds strip the suffix and look up the base kind; all other kinds
are looked up directly, raising `KeyError` when absent. -/
def typeOf (p : ParamNode) : Except PyError (Option String × TraitType) :=
  if p.nodeName == "string-enumeration" then
    .ok (none, .enumT p.elementChildren)
  else if endsWithStr p.nodeName "-vector" then
    match typesDict (dropRightStr p.nodeName 7) with
    | some t => .ok (some ",", .listT t)
    | none => .error (.keyError (dropRightStr p.nodeName 7))
  else
    match typesDict p.nodeName with
    | some t => .ok (none, t)
    | none => .error (.keyError p.nodeName)

/-- Line 85: for the four file-like kinds the first `channel` child is
read unguarded (`IndexError` when absent) and compared against
`"output"`; every other kind is never an output. -/
def channelOf (p : ParamNode) : Except PyError Bool :=
  if fileKinds.contains p.nodeName then
    match p.channelChildren with
    | [] => .error (.indexError "channel")
    | c :: _ => .ok (c == "output")
  else
    .ok false

/-- Lines 106-113, `_gen_filename_from_param`: base name from the first
`name` child; extension from the `fileExtensions` attribute when
non-empty, else from the kind table (`KeyError` when the kind has no
entry); result made absolute. -/
def gen_filename_from_param (cwd : String) (p : ParamNode) : Except PyError String :=
  match headE p.nameChildren (.indexError "name") with
  | .error e => .error e
  | .ok base =>
    match (if p.fileExtensions == "" then
             match extDict p.nodeName with
             | some e => Except.ok e
             | none => Except.error (PyError.keyError p.nodeName)
           else Except.ok p.fileExtensions) with
    | .error e => .error e
    | .ok ext => .ok (abspath cwd (base ++ ext))

/-- Lines 44-97: the body of the per-parameter loop of `__init__`, in
source evaluation order: name, flag, value format, position, desc,
trait type, output classification, and (for outputs) the cached default
filename.  An output node gets `Either(Bool, File)` as its input trait
with the params accumulated so far (`exists` not yet set); a non-output
file-like node gets `exists=True`. -/
def compileParam (cwd : String) (p : ParamNode) : Except PyError CompiledParam :=
  match headE p.nameChildren (.indexError "name") with
  | .error e => .error e
  | .ok name =>
    let flag := flagOf p.longflagChildren name
    match fmtOf p with
    | .error e => .error e
    | .ok fmt =>
      let argstr := flag ++ fmt
      let position := p.indexChildren.head?
      match descOf p with
      | .error e => .error e
      | .ok desc =>
        match typeOf p with
        | .error e => .error e
        | .ok (sep, ty) =>
          match channelOf p with
          | .error e => .error e
          | .ok isOut =>
            if isOut then
              match gen_filename_from_param cwd p with
              | .error e => .error e
              | .ok fname =>
                .ok ⟨name, .eitherBoolFile, ⟨argstr, position, desc, sep, false⟩,
                     true, some fname, p⟩
            else
              .ok ⟨name, ty, ⟨argstr, position, desc, sep, fileKinds.contains p.nodeName⟩,
                   false, none, p⟩

/-- The parameter loop over a flat list of candidate nodes: skipped
names are passed over (line 42); the first exception aborts the whole
construction, so nothing compiled earlier survives. -/
def compileParams (cwd : String) : List ParamNode → Except PyError (List CompiledParam)
  | [] => .ok []
  | p :: rest =>
    if skipNames.contains p.nodeName then
      compileParams cwd rest
    else
      match compileParam cwd p with
      | .error e => .error e
      | .ok c =>
        match compileParams cwd rest with
        | .error e => .error e
        | .ok cs => .ok (c :: cs)

/-- The parsed schema document: the `parameters` groups, each with its
candidate child nodes. -/
structure Document where
  groups : List (List ParamNode)
deriving DecidableEq, Repr

/-- The state a successful `__init__` leaves behind, as the ordered list
of compiled parameters. -/
structure Interface where
  compiled : List CompiledParam
deriving DecidableEq, Repr

/-- Lines 40-99: iterate all `parameters` groups and their children;
any exception propagates out of the constructor, so no interface object
is ever exposed on failure. -/
def buildInterface (cwd : String) (doc : Document) : Except PyError Interface :=
  match compileParams cwd doc.groups.flatten with
  | .error e => .error e
  | .ok cs => .ok ⟨cs⟩

/-- A value held by a dynamic input field: the `Undefined` sentinel, a
Python bool, a string, an int, or Python `None` (only ever produced by a
failed `_gen_filename` lookup). -/
inductive Value where
  | undefV
  | boolV (b : Bool)
  | strV (s : String)
  | intV (n : Int)
  | pyNone
deriving DecidableEq, Repr

/-- `isdefined(v)`: everything but the `Undefined` sentinel. -/
def isSet (v : Value) : Bool :=
  match v with
  | .undefV => false
  | _ => true

/-- Python `str(v)` for the values that can reach a format operator. -/
def pyStr (v : Value) : String :=
  match v with
  | .undefV => "<undefined>"
  | .boolV true => "True"
  | .boolV false => "False"
  | .strV s => s
  | .intV n => toString n
  | .pyNone => "None"

/-- Substitute a rendered value for each `%s`, `%d` or `%f` placeholder
in a character list. -/
def substPct (v : List Char) : List Char → List Char
  | '%' :: 's' :: rest => v ++ substPct v rest
  | '%' :: 'd' :: rest => v ++ substPct v rest
  | '%' :: 'f' :: rest => v ++ substPct v rest
  | c :: rest => c :: substPct v rest
  | [] => []

/-- The Python `%` operator on an `argstr` holding at most one
placeholder (`%s`, `%d` or `%f`): substitute the rendered value for the
placeholder. -/
def renderArg (argstr : String) (v : Value) : String :=
  ⟨substPct (pyStr v).data argstr.data⟩

/-- First-match lookup in an association list, as a Python dict lookup
over the keys stored here (keys are unique per interface). -/
def lookupStr (l : List (String × String)) (k : String) : Option String :=
  match l with
  | [] => none
  | kv :: rest => if kv.1 == k then some kv.2 else lookupStr rest k

/-- The `_outputs_filenames` mapping the constructor caches: one entry
per output node, holding its pre-computed default filename. -/
def outputsFilenames (iface : Interface) : List (String × String) :=
  iface.compiled.filterMap (fun c => c.outputFilename.map (fun f => (c.name, f)))

/-- The names of the output nodes (`_outputs_nodes` projected to the
`name` child), as enumerated on line 128. -/
def outputNames (iface : Interface) : List String :=
  (iface.compiled.filter (fun c => c.isOutput)).map (fun c => c.name)

/-- The stored `_outputs_nodes` list. -/
def outputsNodes (iface : Interface) : List ParamNode :=
  (iface.compiled.filter (fun c => c.isOutput)).map (fun c => c.node)

/-- Lines 101-104, `_gen_filename`: the cached default filename, or
`None` for unknown names. -/
def gen_filename (filenames : List (String × String)) (name : String) : Option String :=
  lookupStr filenames name

/-- Lines 127-134, `_format_arg`: for a name belonging to an output
node, any boolean value is replaced by the cached default filename and
any other value is used as is, and the result is `argstr % value`; other
names fall through to the base class (modelled below). -/
def format_arg (iface : Interface) (name argstr : String) (v : Value) : String :=
  if (outputNames iface).contains name then
    let fname : Value :=
      match v with
      | .boolV _ =>
        match gen_filename (outputsFilenames iface) name with
        | some f => .strV f
        | none => .pyNone
      | other => other
    renderArg argstr fname
  else
    renderArg argstr v

/-- Modelled from the spec: the base-class rendering performed by
`CommandLine._format_arg` (not under `src/`), which per the spec renders
`cliFlag + (valueFormat % resolvedValue)`; with `argstr = cliFlag ++
valueFormat` this is exactly `argstr % value`. -/
def base_format_arg (argstr : String) (v : Value) : String :=
  renderArg argstr v

/-- The sort key of a positional argument: its `index` text read as a
number (the spec orders positional arguments by ascending index). -/
def strToNat (s : String) : Option Nat :=
  if s.data ≠ [] ∧ s.data.all (fun c => c.isDigit) then
    some (s.data.foldl (fun n c => n * 10 + (c.toNat - 48)) 0)
  else none

def posKey (pos : Option String) : Nat :=
  match pos with
  | some s => (strToNat s).getD 0
  | none => 0

/-- The ascending-index order on tagged rendered arguments. -/
def posLe (a b : Option String × String) : Prop :=
  posKey a.1 ≤ posKey b.1

instance posLe.decRel : DecidableRel posLe :=
  fun a b => inferInstanceAs (Decidable (posKey a.1 ≤ posKey b.1))

/-- Modelled from the spec: positional arguments are placed in ascending
index order (an insertion sort by the numeric index). -/
def sortByPos (l : List (Option String × String)) : List (Option String × String) :=
  List.insertionSort posLe l

/-- The rendered arguments of every set input, in descriptor-declaration
order, each tagged with its optional positional index. -/
def renderedArgs (iface : Interface) (vals : String → Value) :
    List (Option String × String) :=
  (iface.compiled.filter (fun c => isSet (vals c.name))).map
    (fun c => (c.inputParams.position,
               format_arg iface c.name c.inputParams.argstr (vals c.name)))

/-- The rendered arguments carrying a positional index. -/
def positionalArgs (iface : Interface) (vals : String → Value) :
    List (Option String × String) :=
  (renderedArgs iface vals).filter (fun r => r.1.isSome)

/-- The rendered arguments of flagged (non-positional) descriptors. -/
def flaggedArgs (iface : Interface) (vals : String → Value) :
    List (Option String × String) :=
  (renderedArgs iface vals).filter (fun r => r.1.isNone)

/-- Modelled from the spec: the base-class command assembly
(`CommandLine._parse_inputs`, not under `src/`).  Per the spec, every
descriptor whose input value is not undefined is rendered through
`_format_arg`, positional descriptors come first in ascending index
order, and flagged descriptors follow in declaration order. -/
def parse_inputs (iface : Interface) (vals : String → Value) : List String :=
  (sortByPos (positionalArgs iface vals)).map (fun r => r.2) ++
    (flaggedArgs iface vals).map (fun r => r.2)

/-- Lines 119-124 of `_list_outputs`, factored per output name: the
input-side value is copied, and when it is a defined boolean, `True`
becomes the cached default filename (`None` if uncached) and `False`
becomes `Undefined`. -/
def resolveOutput (filenames : List (String × String)) (name : String) (v : Value) : Value :=
  match v with
  | .boolV true =>
    match gen_filename filenames name with
    | some f => .strV f
    | none => .pyNone
  | .boolV false => .undefV
  | other => other

/-- Lines 115-125, `_list_outputs`: walk `_outputs_nodes`, re-read each
node's first `name` child, and resolve the corresponding input value. -/
def list_outputs (iface : Interface) (vals : String → Value) :
    Except PyError (List (String × Value)) :=
  (outputsNodes iface).mapM (fun node =>
    match node.nameChildren with
    | [] => .error (.indexError "name")
    | n :: _ => .ok (n, resolveOutput (outputsFilenames iface) n (vals n)))

/-- The observable outcome of `CommandLine(command=..., args="--xml").run()`:
the process could not be started, exited non-zero, or produced stdout. -/
inductive RunOutcome where
  | startFailure
  | nonZeroExit (code : Nat)
  | ok (stdout : String)

/-- Lines 26-29, `_grab_xml`: run the tool with `--xml` and parse its
stdout.  The run step is modelled from the spec (the base-class
`CommandLine.run` is not under `src/`): a process that cannot start or
exits non-zero surfaces a process error.  The parse step models
`xml.dom.minidom.parseString`, whose failure on ill-formed input is an
`ExpatError`.  `_grab_xml` itself catches nothing, wraps nothing and
never retries, so these underlying errors propagate as they are. -/
def grab_xml (run : RunOutcome) (parse : String → Option Document) :
    Except PyError Document :=
  match run with
  | .startFailure => .error .processError
  | .nonZeroExit _ => .error .processError
  | .ok out =>
    match parse out with
    | none => .error .expatError
    | some d => .ok d


/-! ### Concrete schema fragments used by the witnesses and counterexamples -/

/-- A `transform` output node named `outputTransform`, as in the
`BRAINSFit` example of the source. -/
def exOutNode : ParamNode :=
  ⟨"transform", ["outputTransform"], [], [], [], ["output"], [], ""⟩

/-- A one-parameter schema holding only `exOutNode`. -/
def exDoc1 : Document := ⟨[[exOutNode]]⟩

/-- The interface compiled from `exDoc1` with working directory `/wd`. -/
def exIface1 : Interface :=
  ⟨[⟨"outputTransform", .eitherBoolFile,
     ⟨"--outputTransform %s", none, none, none, false⟩,
     true, some "/wd/outputTransform.txt", exOutNode⟩]⟩

/-- An input assignment setting the output toggle to `False`. -/
def exValsFalse : String → Value :=
  fun n => if n == "outputTransform" then .boolV false else .undefV

/-- Positional descriptor `A` with index 1. -/
def nodeA : ParamNode := ⟨"string", ["A"], [], ["1"], ["descA"], [], [], ""⟩

/-- Positional descriptor `B` with index 0. -/
def nodeB : ParamNode := ⟨"string", ["B"], [], ["0"], ["descB"], [], [], ""⟩

/-- Flagged descriptor `C` with long flag `c`. -/
def nodeC : ParamNode := ⟨"string", ["C"], ["c"], [], [], [], [], ""⟩

/-- The ordering scenario of the spec: `A` (index 1), `B` (index 0) and
flagged `C`, declared in that order. -/
def exDoc2 : Document := ⟨[[nodeA, nodeB, nodeC]]⟩

/-- All three scenario inputs set to strings. -/
def exVals2 : String → Value :=
  fun n =>
    if n == "A" then .strV "va"
    else if n == "B" then .strV "vb"
    else if n == "C" then .strV "vc"
    else .undefV

/-! ### Helper lemmas -/

theorem sortByPos_sorted (l : List (Option String × String)) :
    List.Sorted posLe (sortByPos l) := by
  haveI : IsTotal (Option String × String) posLe := ⟨fun a b => Nat.le_total _ _⟩
  haveI : IsTrans (Option String × String) posLe := ⟨fun a b c => Nat.le_trans⟩
  exact List.sorted_insertionSort posLe l

theorem sortByPos_length (l : List (Option String × String)) :
    (sortByPos l).length = l.length :=
  (List.perm_insertionSort posLe l).length_eq

theorem filter_some_none_length (l : List (Option String × String)) :
    (l.filter (fun r => r.1.isSome)).length +
      (l.filter (fun r => r.1.isNone)).length = l.length := by
  induction l with
  | nil => rfl
  | cons x xs ih =>
    rcases hx : x.1 with _ | v <;> simp [List.filter_cons, hx] at ih ⊢ <;> omega

/-- Every rendered argument of a set input appears exactly once in the
assembled command: the synthesized argument list has one entry per set
descriptor, so undefined inputs contribute nothing. -/
theorem parse_inputs_length (iface : Interface) (vals : String → Value) :
    (parse_inputs iface vals).length =
      (iface.compiled.filter (fun c => isSet (vals c.name))).length := by
  unfold parse_inputs
  rw [List.length_append, List.length_map, List.length_map, sortByPos_length]
  unfold positionalArgs flaggedArgs
  rw [filter_some_none_length]
  unfold renderedArgs
  rw [List.length_map]


/-! ### C1 -/

/-- C1 (counterexample): the claim says a boolean `false` omits the
argument entirely, with no flag emitted.  On the code it does not:
`_format_arg` (line 129) tests `isinstance(value, bool)`, which is true
for `False` as well, and substitutes the cached default filename, so the
flag and the default path are emitted.  Here the interface compiled from
a one-output schema, with the toggle set to `False`, synthesizes
`--outputTransform /wd/outputTransform.txt` instead of an empty command
line. -/
theorem C1_counterexample :
    buildInterface "/wd" exDoc1 = .ok exIface1 ∧
    parse_inputs exIface1 exValsFalse =
      ["--outputTransform /wd/outputTransform.txt"] ∧
    parse_inputs exIface1 exValsFalse ≠ [] :=
  ⟨rfl, rfl, fun h => nomatch h⟩

/-- C1 (amended): for a File-like Output descriptor whose input value is
set, `_format_arg` renders any boolean value — `true` and `false` alike —
as the flag followed by the pre-computed default filename; a string
value is rendered verbatim as an explicit override path; and only an
undefined input contributes no argument (the assembled command has
exactly one entry per set descriptor). -/
theorem C1_output_value_resolution :
    ∀ (iface : Interface) (name argstr f : String),
      (outputNames iface).contains name = true →
      gen_filename (outputsFilenames iface) name = some f →
      (∀ b, format_arg iface name argstr (.boolV b) = renderArg argstr (.strV f)) ∧
      (∀ s, format_arg iface name argstr (.strV s) = renderArg argstr (.strV s)) ∧
      (∀ vals : String → Value,
        (parse_inputs iface vals).length =
          (iface.compiled.filter (fun c => isSet (vals c.name))).length) := by
  intro iface name argstr f hout hfn
  have hmem : name ∈ outputNames iface := by simpa using hout
  refine ⟨fun b => ?_, fun s => ?_, fun vals => parse_inputs_length iface vals⟩
  · simp [format_arg, hmem, hout, hfn]
  · simp [format_arg, hmem, hout]

/-- C1 (witness): the amended theorem applied to the compiled
one-output interface, at a `false` toggle. -/
theorem C1_witness :
    format_arg exIface1 "outputTransform" "--outputTransform %s" (.boolV false) =
      renderArg "--outputTransform %s" (.strV "/wd/outputTransform.txt") :=
  (C1_output_value_resolution exIface1 "outputTransform" "--outputTransform %s"
    "/wd/outputTransform.txt" rfl rfl).1 false

/-! ### C2 -/

/-- C2: post-run output resolution maps the input-side value of an
Output descriptor as follows: boolean `true` becomes the pre-computed
default filename, boolean `false` and the undefined sentinel become
undefined, and a string value becomes that explicit path; and
`_list_outputs` applies exactly this resolution to every stored output
node. -/
theorem C2_output_resolution :
    ∀ (filenames : List (String × String)) (name f s : String),
      gen_filename filenames name = some f →
      resolveOutput filenames name (.boolV true) = .strV f ∧
      resolveOutput filenames name (.boolV false) = .undefV ∧
      resolveOutput filenames name .undefV = .undefV ∧
      resolveOutput filenames name (.strV s) = .strV s ∧
      (∀ (iface : Interface) (vals : String → Value),
        list_outputs iface vals =
          (outputsNodes iface).mapM (fun node =>
            match node.nameChildren with
            | [] => .error (.indexError "name")
            | n :: _ => .ok (n, resolveOutput (outputsFilenames iface) n (vals n)))) := by
  intro filenames name f s hfn
  exact ⟨by simp [resolveOutput, hfn], rfl, rfl, rfl, fun _ _ => rfl⟩

/-- C2 (witness): resolution over the compiled one-output interface,
checking all four value shapes at a concrete input. -/
theorem C2_witness :
    resolveOutput (outputsFilenames exIface1) "outputTransform" (.boolV true) =
      .strV "/wd/outputTransform.txt" ∧
    resolveOutput (outputsFilenames exIface1) "outputTransform" (.boolV false) = .undefV :=
  ⟨(C2_output_resolution (outputsFilenames exIface1) "outputTransform"
      "/wd/outputTransform.txt" "x" rfl).1,
   (C2_output_resolution (outputsFilenames exIface1) "outputTransform"
      "/wd/outputTransform.txt" "x" rfl).2.1⟩


/-! ### C3 -/

/-- A file-like output node with kind-table entries compiles to an
output descriptor whose cached default filename is
`abspath(name ++ ext)`, with `ext` taken from the `fileExtensions`
attribute when non-empty and from the kind table otherwise. -/
theorem compileParam_output_ok
    (cwd name ext nn fmtv de : String) (tyv : TraitType)
    (lf chRest elems : List String)
    (hvec : endsWithStr nn "-vector" = false)
    (henum : (nn == "string-enumeration") = false)
    (hfmt : argsDict nn = some fmtv)
    (hty : typesDict nn = some tyv)
    (hfk : fileKinds.contains nn = true)
    (hde : extDict nn = some de) :
    compileParam cwd ⟨nn, [name], lf, [], [], "output" :: chRest, elems, ext⟩ =
      .ok ⟨name, .eitherBoolFile, ⟨flagOf lf name ++ fmtv, none, none, none, false⟩,
           true, some (abspath cwd (name ++ (if ext == "" then de else ext))),
           ⟨nn, [name], lf, [], [], "output" :: chRest, elems, ext⟩⟩ := by
  have hfkm : nn ∈ fileKinds := by simpa using hfk
  have hne : nn ≠ "string-enumeration" := by simpa using henum
  have hgen : gen_filename_from_param cwd
      ⟨nn, [name], lf, [], [], "output" :: chRest, elems, ext⟩ =
      .ok (abspath cwd (name ++ (if ext == "" then de else ext))) := by
    by_cases hext : ext = ""
    · subst hext
      simp [gen_filename_from_param, headE, hde]
    · have hb : (ext == "") = false := beq_eq_false_iff_ne.mpr hext
      simp [gen_filename_from_param, headE, hb]
  simp [compileParam, fmtOf, descOf, typeOf, channelOf, headE,
        hvec, henum, hne, hfmt, hty, hfk, hfkm, hgen]

/-- C3: for every File-like Output descriptor of a kind covered by the
extension table (image, transform, file), the default filename is
deterministic and equals `abspath(name ++ ext)`, where `ext` is the
explicit `fileExtensions` attribute when present and otherwise the
kind-table entry (image `.nii`, transform `.txt`, file empty); and the
round-trip — setting the input toggle to boolean `true` and reading the
resolved output — yields exactly this path.  (The remaining file-like
kind, `directory`, never compiles into a descriptor because the
value-format table has no entry for it.) -/
theorem C3_default_filename_round_trip :
    ∀ (cwd name ext nn de : String) (lf chRest elems : List String),
      (nn, de) ∈ [("image", ".nii"), ("transform", ".txt"), ("file", "")] →
      compileParam cwd ⟨nn, [name], lf, [], [], "output" :: chRest, elems, ext⟩ =
        .ok ⟨name, .eitherBoolFile,
             ⟨flagOf lf name ++ "%s", none, none, none, false⟩,
             true,
             some (abspath cwd (name ++ (if ext == "" then de else ext))),
             ⟨nn, [name], lf, [], [], "output" :: chRest, elems, ext⟩⟩ ∧
      resolveOutput [(name, abspath cwd (name ++ (if ext == "" then de else ext)))] name
          (.boolV true) =
        .strV (abspath cwd (name ++ (if ext == "" then de else ext))) := by
  intro cwd name ext nn de lf chRest elems hmem
  have hres : ∀ f : String,
      resolveOutput [(name, f)] name (.boolV true) = .strV f := by
    intro f
    simp [resolveOutput, gen_filename, lookupStr]
  simp only [List.mem_cons, List.mem_singleton, Prod.mk.injEq] at hmem
  rcases hmem with ⟨rfl, rfl⟩ | ⟨rfl, rfl⟩ | ⟨rfl, rfl⟩ | h
  · exact ⟨compileParam_output_ok cwd name ext "image" "%s" ".nii" .fileT lf chRest elems
      (by decide) (by decide) rfl rfl (by decide) rfl, hres _⟩
  · exact ⟨compileParam_output_ok cwd name ext "transform" "%s" ".txt" .fileT lf chRest elems
      (by decide) (by decide) rfl rfl (by decide) rfl, hres _⟩
  · exact ⟨compileParam_output_ok cwd name ext "file" "%s" "" .fileT lf chRest elems
      (by decide) (by decide) rfl rfl (by decide) rfl, hres _⟩
  · exact absurd h (by simp)

/-- C3 (witness): the `transform` output node without an explicit
extension gets default filename `/wd/outputTransform.txt`, and reading
the output after setting the toggle to `true` returns it. -/
theorem C3_witness :
    compileParam "/wd" ⟨"transform", ["outputTransform"], [], [], [], ["output"], [], ""⟩ =
      .ok ⟨"outputTransform", .eitherBoolFile,
           ⟨"--outputTransform %s", none, none, none, false⟩, true,
           some "/wd/outputTransform.txt",
           ⟨"transform", ["outputTransform"], [], [], [], ["output"], [], ""⟩⟩ ∧
    resolveOutput [("outputTransform", "/wd/outputTransform.txt")] "outputTransform"
        (.boolV true) = .strV "/wd/outputTransform.txt" :=
  C3_default_filename_round_trip "/wd" "outputTransform" "" "transform" ".txt" [] [] []
    (by decide)

/-! ### C4 -/

/-- C4 (counterexample): a schema whose second parameter node lacks a
`name` child aborts construction with the uncaught `IndexError` of
`getElementsByTagName("name")[0]` — not with an `InvalidSchemaError`,
a class the code never defines nor raises. -/
theorem C4_counterexample :
    buildInterface "/wd" ⟨[[nodeC, ⟨"integer", [], [], [], [], [], [], ""⟩]]⟩ =
      .error (.indexError "name") ∧
    PyError.indexError "name" ≠ .invalidSchemaError :=
  ⟨rfl, by decide⟩

/-- C4 (amended): a parameter node with no `name` child is fatal: the
constructor propagates the uncaught `IndexError` (not an
`InvalidSchemaError`), compilation of the whole interface aborts, and no
interface — in particular none retaining fields of earlier-parsed
nodes — is exposed to the caller. -/
theorem C4_missing_name_aborts :
    ∀ (cwd : String) (pre : List ParamNode) (l : List CompiledParam)
      (bad : ParamNode) (rest : List ParamNode),
      compileParams cwd pre = .ok l →
      skipNames.contains bad.nodeName = false →
      bad.nameChildren = [] →
      buildInterface cwd ⟨[pre ++ bad :: rest]⟩ = .error (.indexError "name") ∧
      PyError.indexError "name" ≠ .invalidSchemaError := by
  intro cwd pre l bad rest hpre hskip hname
  have hbadskip : bad.nodeName ∉ skipNames := by simpa using hskip
  have hbad : compileParam cwd bad = .error (.indexError "name") := by
    simp [compileParam, headE, hname]
  have key : ∀ (pre : List ParamNode) (l : List CompiledParam),
      compileParams cwd pre = .ok l →
      compileParams cwd (pre ++ bad :: rest) = .error (.indexError "name") := by
    intro pre
    induction pre with
    | nil =>
      intro l _
      simp [compileParams, hbadskip, hbad]
    | cons p ps ih =>
      intro l hl
      by_cases hs : p.nodeName ∈ skipNames
      · rw [show compileParams cwd (p :: ps) = compileParams cwd ps from by
          simp [compileParams, hs]] at hl
        rw [List.cons_append]
        rw [show compileParams cwd (p :: (ps ++ bad :: rest)) =
            compileParams cwd (ps ++ bad :: rest) from by simp [compileParams, hs]]
        exact ih l hl
      · have hu : ∀ tail, compileParams cwd (p :: tail) =
            (match compileParam cwd p with
             | .error e => .error e
             | .ok c =>
               match compileParams cwd tail with
               | .error e => .error e
               | .ok cs => .ok (c :: cs)) := by
          intro tail
          simp [compileParams, hs]
        rw [hu ps] at hl
        rw [List.cons_append, hu (ps ++ bad :: rest)]
        cases hc : compileParam cwd p with
        | error e => simp [hc] at hl
        | ok c =>
          simp only [hc] at hl ⊢
          cases hr : compileParams cwd ps with
          | error e => simp [hr] at hl
          | ok cs => simp [ih cs hr]
  exact ⟨by simp [buildInterface, key pre l hpre], by decide⟩

/-- C4 (witness): after one well-formed node (flagged string `C`), a
nameless `integer` node aborts the whole construction. -/
theorem C4_witness :
    buildInterface "/wd" ⟨[[nodeC, ⟨"integer", [], [], [], [], [], [], ""⟩, nodeA]]⟩ =
      .error (.indexError "name") ∧
    PyError.indexError "name" ≠ .invalidSchemaError :=
  C4_missing_name_aborts "/wd" [nodeC]
    [⟨"C", .strT, ⟨"--c %s", none, none, none, false⟩, false, none, nodeC⟩]
    ⟨"integer", [], [], [], [], [], [], ""⟩ [nodeA] rfl rfl rfl


/-! ### C5 -/

/-- C5 (counterexample): a `string-enumeration` node with zero `element`
children compiles successfully into an `Enum` descriptor with an empty
value list; no `InvalidSchemaError` (a class the code never defines) and
no error at all is raised by the wrapper code for this input. -/
theorem C5_counterexample :
    compileParam "/wd" ⟨"string-enumeration", ["opt"], [], [], [], [], [], ""⟩ =
      .ok ⟨"opt", .enumT [], ⟨"--opt %s", none, none, none, false⟩, false, none,
           ⟨"string-enumeration", ["opt"], [], [], [], [], [], ""⟩⟩ ∧
    compileParam "/wd" ⟨"string-enumeration", ["opt"], [], [], [], [], [], ""⟩ ≠
      .error .invalidSchemaError :=
  ⟨rfl, fun h => nomatch h⟩

/-- C5 (amended): the compiler performs no emptiness check on
enumeration domains: every `string-enumeration` node with zero `element`
children (and a `name` child) compiles without error into a descriptor
whose enumeration value list is empty. -/
theorem C5_enum_empty_compiles :
    ∀ (cwd name ext : String) (lf ch : List String),
      compileParam cwd ⟨"string-enumeration", [name], lf, [], [], ch, [], ext⟩ =
        .ok ⟨name, .enumT [], ⟨flagOf lf name ++ "%s", none, none, none, false⟩,
             false, none, ⟨"string-enumeration", [name], lf, [], [], ch, [], ext⟩⟩ :=
  fun _ _ _ _ _ => rfl

/-! ### C6 -/

/-- C6 (counterexample): `_grab_xml` wraps nothing: a process that
cannot start surfaces the process error itself and ill-formed XML
surfaces the parser error itself; neither equals the
`SchemaFetchError` the claim names, a class the code never defines. -/
theorem C6_counterexample :
    grab_xml .startFailure (fun _ => none) = .error .processError ∧
    grab_xml (.ok "not xml") (fun _ => none) = .error .expatError ∧
    PyError.processError ≠ .schemaFetchError ∧
    PyError.expatError ≠ .schemaFetchError :=
  ⟨rfl, rfl, by decide, by decide⟩

/-- C6 (amended): whenever the schema-fetch process cannot be started
or exits non-zero, or its output fails to parse, wrapper construction
fails — with the underlying propagated error (process error or XML
parse error respectively), never with a `SchemaFetchError` or
`InvalidSchemaError` — and there is no retry: the single run outcome
fully determines the result. -/
theorem C6_fetch_failures_propagate :
    (∀ parse : String → Option Document,
      grab_xml .startFailure parse = .error .processError) ∧
    (∀ (code : Nat) (parse : String → Option Document),
      grab_xml (.nonZeroExit code) parse = .error .processError) ∧
    (∀ (out : String) (parse : String → Option Document),
      parse out = none → grab_xml (.ok out) parse = .error .expatError) ∧
    (∀ (run : RunOutcome) (parse : String → Option Document) (e : PyError),
      grab_xml run parse = .error e →
      e ≠ .schemaFetchError ∧ e ≠ .invalidSchemaError) := by
  refine ⟨fun parse => rfl, fun code parse => rfl, fun out parse h => ?_, ?_⟩
  · simp [grab_xml, h]
  · intro run parse e h
    cases run with
    | startFailure =>
      rw [show grab_xml .startFailure parse = .error .processError from rfl] at h
      injection h with h2
      subst h2
      exact ⟨by decide, by decide⟩
    | nonZeroExit code =>
      rw [show grab_xml (.nonZeroExit code) parse = .error .processError from rfl] at h
      injection h with h2
      subst h2
      exact ⟨by decide, by decide⟩
    | ok out =>
      cases hp : parse out with
      | some d =>
        rw [show grab_xml (.ok out) parse = (match parse out with
              | none => .error .expatError
              | some d => .ok d) from rfl, hp] at h
        exact absurd h (by simp)
      | none =>
        rw [show grab_xml (.ok out) parse = (match parse out with
              | none => .error .expatError
              | some d => .ok d) from rfl, hp] at h
        injection h with h2
        subst h2
        exact ⟨by decide, by decide⟩

/-- C6 (witness): a run that produced unparsable output fails with the
parser error, which is not a `SchemaFetchError`. -/
theorem C6_witness :
    grab_xml (.ok "oops") (fun _ => none) = .error .expatError ∧
    PyError.expatError ≠ .schemaFetchError ∧
    PyError.expatError ≠ .invalidSchemaError :=
  ⟨C6_fetch_failures_propagate.2.2.1 "oops" (fun _ => none) rfl,
   (C6_fetch_failures_propagate.2.2.2 (.ok "oops") (fun _ => none) .expatError
      (C6_fetch_failures_propagate.2.2.1 "oops" (fun _ => none) rfl)).1,
   (C6_fetch_failures_propagate.2.2.2 (.ok "oops") (fun _ => none) .expatError
      (C6_fetch_failures_propagate.2.2.1 "oops" (fun _ => none) rfl)).2⟩

/-! ### C7 -/

/-- C7: for every Vector-kind descriptor (node name ending in
`-vector`), the value format equals the scalar base format obtained by
stripping the `-vector` suffix and consulting the fixed lookup table,
and the separator is always the comma character. -/
theorem C7_vector_format_and_separator :
    ∀ (cwd name ext nn fmtv : String) (tyv : TraitType) (lf elems : List String),
      endsWithStr nn "-vector" = true →
      argsDict (dropRightStr nn 7) = some fmtv →
      typesDict (dropRightStr nn 7) = some tyv →
      compileParam cwd ⟨nn, [name], lf, [], [], [], elems, ext⟩ =
        .ok ⟨name, .listT tyv, ⟨flagOf lf name ++ fmtv, none, none, some ",", false⟩,
             false, none, ⟨nn, [name], lf, [], [], [], elems, ext⟩⟩ := by
  intro cwd name ext nn fmtv tyv lf elems hvec hfmt hty
  have h1 : nn ≠ "file" := by rintro rfl; revert hvec; decide
  have h2 : nn ≠ "directory" := by rintro rfl; revert hvec; decide
  have h3 : nn ≠ "image" := by rintro rfl; revert hvec; decide
  have h4 : nn ≠ "transform" := by rintro rfl; revert hvec; decide
  have h5 : nn ≠ "string-enumeration" := by rintro rfl; revert hvec; decide
  have hfk : nn ∉ fileKinds := by simp [fileKinds, h1, h2, h3, h4]
  have henum : (nn == "string-enumeration") = false := by
    exact beq_eq_false_iff_ne.mpr h5
  simp [compileParam, fmtOf, descOf, typeOf, channelOf, headE,
        hvec, hfmt, hty, henum, h5, hfk]

/-- C7 (witness): an `integer-vector` node gets the integer format `%d`
and comma separator. -/
theorem C7_witness :
    compileParam "/wd" ⟨"integer-vector", ["iters"], [], [], [], [], [], ""⟩ =
      .ok ⟨"iters", .listT .intT, ⟨"--iters %d", none, none, some ",", false⟩,
           false, none, ⟨"integer-vector", ["iters"], [], [], [], [], [], ""⟩⟩ :=
  C7_vector_format_and_separator "/wd" "iters" "" "integer-vector" "%d" .intT [] []
    (by decide) (by decide) (by decide)

/-! ### C8 -/

/-- C8: the synthesized command orders positional descriptors first, by
ascending positional index, followed by flagged descriptors in
declaration order — a positional argument always precedes every flagged
argument — and the scenario with descriptors A (index 1), B (index 0)
and flagged C, all set, yields exactly the order B, A, C. -/
theorem C8_positional_before_flagged :
    (∀ (iface : Interface) (vals : String → Value),
      parse_inputs iface vals =
        (sortByPos (positionalArgs iface vals)).map (fun r => r.2) ++
          (flaggedArgs iface vals).map (fun r => r.2)) ∧
    (∀ l : List (Option String × String), List.Sorted posLe (sortByPos l)) ∧
    (buildInterface "/wd" exDoc2).map (fun i => parse_inputs i exVals2) =
      .ok ["--B vb", "--A va", "--c vc"] :=
  ⟨fun _ _ => rfl, sortByPos_sorted, rfl⟩

/-! ### C9 -/

/-- C9 (counterexample): a `directory` node never reaches output-role
classification: its compilation fails at the value-format lookup (the
`argsDict` table has no `directory` entry) with a `KeyError`, with or
without a `channel` child — not with the `IndexError` an unconditional
read of a missing first `channel` child would raise. -/
theorem C9_counterexample :
    compileParam "/wd" ⟨"directory", ["outDir"], [], [], [], [], [], ""⟩ =
      .error (.keyError "directory") ∧
    compileParam "/wd" ⟨"directory", ["outDir"], [], [], [], ["output"], [], ""⟩ =
      .error (.keyError "directory") ∧
    PyError.keyError "directory" ≠ .indexError "channel" :=
  ⟨rfl, rfl, by decide⟩

/-- C9 (amended): for kinds `file`, `image` and `transform`,
output-role classification reads the first `channel` child and a node
with no `channel` child aborts construction with the uncaught
`IndexError` of that read; a `directory` node instead fails earlier,
at the value-format lookup, with an uncaught `KeyError`, whether or not
a `channel` child is present.  In every case construction fails and no
interface is produced. -/
theorem C9_missing_channel_fails :
    ∀ (cwd name ext nn : String) (nrest lf dc elems : List String),
      ((nn = "file" ∨ nn = "image" ∨ nn = "transform") →
        compileParam cwd ⟨nn, name :: nrest, lf, [], dc, [], elems, ext⟩ =
          .error (.indexError "channel")) ∧
      (∀ ix ch : List String,
        compileParam cwd ⟨"directory", name :: nrest, lf, ix, dc, ch, elems, ext⟩ =
          .error (.keyError "directory")) := by
  intro cwd name ext nn nrest lf dc elems
  constructor
  · rintro (rfl | rfl | rfl) <;> rfl
  · intro ix ch
    rfl

/-- C9 (witness): an `image` node with no `channel` child fails with the
`IndexError` of the channel read. -/
theorem C9_witness :
    compileParam "/wd" ⟨"image", ["vol"], [], [], [], [], [], ""⟩ =
      .error (.indexError "channel") :=
  (C9_missing_channel_fails "/wd" "vol" "" "image" [] [] [] []).1
    (Or.inr (Or.inl rfl))

/-! ### C10 -/

/-- C10 (counterexample): the construction-time failure on a
`directory` output node is not located in default-filename computation:
with a `fileExtensions` attribute present the standalone filename
computation succeeds, yet compilation of the node still fails with the
same `KeyError` from the value-format table — identically to the node
without the attribute. -/
theorem C10_counterexample :
    gen_filename_from_param "/wd" ⟨"directory", ["outDir"], [], [], [], ["output"], [], ".x"⟩ =
      .ok "/wd/outDir.x" ∧
    compileParam "/wd" ⟨"directory", ["outDir"], [], [], [], ["output"], [], ".x"⟩ =
      .error (.keyError "directory") ∧
    compileParam "/wd" ⟨"directory", ["outDir"], [], [], [], ["output"], [], ""⟩ =
      .error (.keyError "directory") :=
  ⟨rfl, rfl, rfl⟩

/-- C10 (amended): a `directory` node makes construction fail with an
uncaught `KeyError`, but from the value-format table (which lacks a
`directory` entry), before output-role classification or
default-filename computation is ever reached; the standalone
default-filename computation would indeed also raise a `KeyError` for a
`directory` node without `fileExtensions`, since the extension table
holds only `image`, `transform` and `file`. -/
theorem C10_directory_failure_site :
    ∀ (cwd name ext : String) (nrest lf ix dc ch elems : List String),
      compileParam cwd ⟨"directory", name :: nrest, lf, ix, dc, ch, elems, ext⟩ =
        .error (.keyError "directory") ∧
      gen_filename_from_param cwd ⟨"directory", name :: nrest, lf, ix, dc, ch, elems, ""⟩ =
        .error (.keyError "directory") :=
  fun _ _ _ _ _ _ _ _ _ => ⟨rfl, rfl⟩

end SlicerCLI
